import Mathlib

/-!
Verification of the `pdf2word` browser widget (`PDFToWordConverter`).

The repository holds three revisions of the same widget:
* V1 — the first class in `src/frontend/script.js` (lines 1–177);
* V2 — the second class in `src/frontend/script.js` (lines 178–529);
* V3 — the class in `src/unnamed/part_000`.

Each variant is embedded as pure functions over an explicit widget state.
Network activity (the POST to `/convert`, the GET to `/download/...`, and the
browser save action triggered by `link.click()`) is reified as a list of
effects so that "performs no network call" becomes `effects = []`.
-/

namespace Pdf2Word

/-- A JS `File` handle: only the fields the widget reads. -/
structure File where
  name : String
  type : String
  size : Nat
  deriving Repr, DecidableEq

/-- JS truthiness of a string field that may be `undefined`:
`undefined` and `""` are falsy. -/
def jsTruthy : Option String → Bool
  | none => false
  | some s => s != ""

/-- JS `a || b` for a possibly-`undefined` string `a` with string default `b`. -/
def jsOr : Option String → String → String
  | none, d => d
  | some s, d => if s = "" then d else s

/-- JS truthiness of a JSON boolean field that may be absent. -/
def jsTruthyBool : Option Bool → Bool
  | some b => b
  | none => false

/-- String coercion of a possibly-`undefined` string (JS renders `undefined`). -/
def jsStr : Option String → String
  | some s => s
  | none => "undefined"

/-- The widget's observable state: the four DOM regions' `display` styles,
the error text, the in-memory conversion-result fields, the file input value,
and the download button. `progressText`/`statusText` are the progress captions
of V2/V3 respectively. -/
structure ConverterState where
  uploadDisplay : String
  progressDisplay : String
  resultDisplay : String
  errorDisplay : String
  errorMessage : String
  fileId : Option String
  convertedFilename : Option String
  originalFilename : Option String
  downloadFilename : Option String
  fileInputValue : String
  downloadBtnText : String
  downloadBtnDisabled : Bool
  progressWidth : String
  progressText : String
  statusText : String
  deriving Repr, DecidableEq

/-- Reified network/browser side effects. -/
inductive NetEffect where
  | convertRequest (url : String) (file : File)
  | downloadRequest (url : String)
  | saveAction (suggestedName : String)
  deriving Repr, DecidableEq

/-- Backend base URL of V1 and V2 (`script.js`). -/
def backendUrl : String := "https://pdf2word-4hoo.onrender.com"

/-- Backend base URL of V3 (`part_000`). -/
def backendUrlV3 : String := "https://pdf2msword.netlify.app"

/-- The `showError(message)` method: identical in all three variants (V2's
shake animation is cosmetic). -/
def showError (s : ConverterState) (message : String) : ConverterState :=
  { s with uploadDisplay := "block", progressDisplay := "none",
           resultDisplay := "none", errorDisplay := "block",
           errorMessage := message }

/-- The `showProgress()` method: region switching common to all variants; the
randomized progress-bar timer is cosmetic and not modelled. -/
def showProgress (s : ConverterState) : ConverterState :=
  { s with uploadDisplay := "none", progressDisplay := "block",
           resultDisplay := "none", errorDisplay := "none" }

/-- V1 `showResult(fileId, filename, originalFilename)`. -/
def showResultV1 (s : ConverterState)
    (fid fname oname : Option String) : ConverterState :=
  { s with progressDisplay := "none", resultDisplay := "block",
           fileId := fid, convertedFilename := fname,
           originalFilename := oname, progressWidth := "100%" }

/-- V2/V3 `showResult`: stores `downloadFilename = originalFilename ||
'converted_document.docx'` instead of the raw original filename. -/
def showResultV2 (s : ConverterState)
    (fid fname oname : Option String) : ConverterState :=
  { s with progressDisplay := "none", resultDisplay := "block",
           fileId := fid, convertedFilename := fname,
           downloadFilename := some (jsOr oname "converted_document.docx"),
           progressWidth := "100%" }

/-- The JSON body (and HTTP status) of a `/convert` response. -/
structure ConvertResponse where
  ok : Bool
  status : Nat
  success : Option Bool
  error : Option String
  file_id : Option String
  filename : Option String
  original_filename : Option String
  deriving Repr, DecidableEq

/-- V1 `convertFile(file)` given the backend's response: no `result.success`
check — any `response.ok` body reaches `showResult`. -/
def convertFileV1 (s : ConverterState) (f : File) (r : ConvertResponse) :
    ConverterState × List NetEffect :=
  let s1 := showProgress s
  (if !r.ok then
    showError s1 (jsOr r.error "Conversion failed")
  else
    showResultV1 s1 r.file_id r.filename r.original_filename,
   [NetEffect.convertRequest (backendUrl ++ "/convert") f])

/-- V2 `convertFile(file)`: non-ok responses raise a generic status message
(the body's `error` field is only logged); ok responses with a falsy
`result.success` raise `result.error || 'Conversion failed'`. -/
def convertFileV2 (s : ConverterState) (f : File) (r : ConvertResponse) :
    ConverterState × List NetEffect :=
  let s1 := { showProgress s with progressText := "Uploading PDF..." }
  (if !r.ok then
    showError s1 ("Conversion failed (" ++ toString r.status ++ ")")
  else if !jsTruthyBool r.success then
    showError s1 (jsOr r.error "Conversion failed")
  else
    showResultV2 s1 r.file_id r.filename r.original_filename,
   [NetEffect.convertRequest (backendUrl ++ "/convert") f])

/-- V3 `convertFile(file)`: like V1 (no `result.success` check) but the
fallback message carries the HTTP status, and its `showResult` is the V2/V3
one, storing `downloadFilename = originalFilename || 'converted_document.docx'`
and never assigning `originalFilename`. -/
def convertFileV3 (s : ConverterState) (f : File) (r : ConvertResponse) :
    ConverterState × List NetEffect :=
  let s1 := { showProgress s with statusText := "Uploading PDF..." }
  (if !r.ok then
    showError s1
      (jsOr r.error ("Conversion failed (" ++ toString r.status ++ ")"))
  else
    showResultV2 s1 r.file_id r.filename r.original_filename,
   [NetEffect.convertRequest (backendUrlV3 ++ "/convert") f])

/-- V1 `handleFile(file)`: type check, then size-limit check; no empty-file
check — a zero-byte PDF proceeds to `convertFile`. -/
def handleFileV1 (s : ConverterState) (f : File) (r : ConvertResponse) :
    ConverterState × List NetEffect :=
  if f.type != "application/pdf" then
    (showError s "Please select a PDF file", [])
  else if f.size > 20 * 1024 * 1024 then
    (showError s "File size must be less than 20MB", [])
  else
    convertFileV1 s f r

/-- V2 `handleFile(file)`: type check, size-limit check, then empty-file
check. -/
def handleFileV2 (s : ConverterState) (f : File) (r : ConvertResponse) :
    ConverterState × List NetEffect :=
  if f.type != "application/pdf" then
    (showError s "Please select a PDF file", [])
  else if f.size > 20 * 1024 * 1024 then
    (showError s "File size must be less than 20MB", [])
  else if f.size == 0 then
    (showError s "File is empty", [])
  else
    convertFileV2 s f r

/-- V3 `handleFile(file)`: same validation chain as V2. -/
def handleFileV3 (s : ConverterState) (f : File) (r : ConvertResponse) :
    ConverterState × List NetEffect :=
  if f.type != "application/pdf" then
    (showError s "Please select a PDF file", [])
  else if f.size > 20 * 1024 * 1024 then
    (showError s "File size must be less than 20MB", [])
  else if f.size == 0 then
    (showError s "File is empty", [])
  else
    convertFileV3 s f r

/-- Outcome of a `/download/...` fetch: an ok response with a body of
`blobSize` bytes, a non-ok response (with the JSON error body V3 reads), or a
thrown exception (network failure or a body-read error). -/
inductive DlOutcome where
  | ok (status : Nat) (blobSize : Nat)
  | httpError (status : Nat) (errorBody : Option String)
  | exn (msg : String)
  deriving Repr, DecidableEq

/-- One run of `downloadConvertedFile`: the final state, the reified effects,
and the widget state at the moment the request was issued (`none` when no
request was made). -/
structure DlRun where
  final : ConverterState
  effects : List NetEffect
  requestState : Option ConverterState
  deriving Repr, DecidableEq

/-- The `try` block's first two statements, common to all variants:
`downloadBtn.textContent = 'Downloading...'; downloadBtn.disabled = true`. -/
def downloadBusy (s : ConverterState) : ConverterState :=
  { s with downloadBtnText := "Downloading...", downloadBtnDisabled := true }

/-- The `finally` block, common to all variants. -/
def downloadFinally (s : ConverterState) : ConverterState :=
  { s with downloadBtnText := "Download Word Document",
           downloadBtnDisabled := false }

/-- V1 `downloadConvertedFile()`: guarded by
`if (this.fileId && this.convertedFilename)` with no `else` — when the guard
fails the function silently does nothing. The URL is
`/download/{fileId}/{convertedFilename}`; the catch shows a fixed message;
there is no blob-size check. -/
def downloadConvertedFileV1 (s : ConverterState) (out : DlOutcome) : DlRun :=
  if jsTruthy s.fileId && jsTruthy s.convertedFilename then
    let sb := downloadBusy s
    let url := backendUrl ++ "/download/" ++ jsStr s.fileId ++ "/" ++
               jsStr s.convertedFilename
    let step : ConverterState × List NetEffect :=
      match out with
      | DlOutcome.ok _ _ =>
          (sb, [NetEffect.downloadRequest url,
                NetEffect.saveAction (jsOr s.originalFilename "converted.docx")])
      | DlOutcome.httpError _ _ =>
          (showError sb "Download failed. Please try again.",
           [NetEffect.downloadRequest url])
      | DlOutcome.exn _ =>
          (showError sb "Download failed. Please try again.",
           [NetEffect.downloadRequest url])
    { final := downloadFinally step.1, effects := step.2,
      requestState := some sb }
  else
    { final := s, effects := [], requestState := none }

/-- V2 `downloadConvertedFile()`: `if (!this.fileId)` shows
`'No file to download'` and returns; the URL is `/download/{fileId}`; a
zero-byte blob raises `'Downloaded file is empty'`; `showDownloadSuccess`
briefly sets the button label before the `finally` block restores it. -/
def downloadConvertedFileV2 (s : ConverterState) (out : DlOutcome) : DlRun :=
  if !jsTruthy s.fileId then
    { final := showError s "No file to download", effects := [],
      requestState := none }
  else
    let sb := downloadBusy s
    let url := backendUrl ++ "/download/" ++ jsStr s.fileId
    let step : ConverterState × List NetEffect :=
      match out with
      | DlOutcome.ok _ blobSize =>
          if blobSize == 0 then
            (showError sb "Download failed: Downloaded file is empty",
             [NetEffect.downloadRequest url])
          else
            ({ sb with downloadBtnText := "✓ Downloaded!" },
             [NetEffect.downloadRequest url,
              NetEffect.saveAction (jsStr s.downloadFilename)])
      | DlOutcome.httpError _ _ =>
          (showError sb "Download failed: Download failed - file may have expired",
           [NetEffect.downloadRequest url])
      | DlOutcome.exn msg =>
          (showError sb ("Download failed: " ++ msg),
           [NetEffect.downloadRequest url])
    { final := downloadFinally step.1, effects := step.2,
      requestState := some sb }

/-- V3 `downloadConvertedFile()`: like V2 but the non-ok branch rethrows
`error.error || 'Download failed'` from the JSON body, and there is no
blob-size check. -/
def downloadConvertedFileV3 (s : ConverterState) (out : DlOutcome) : DlRun :=
  if !jsTruthy s.fileId then
    { final := showError s "No file to download", effects := [],
      requestState := none }
  else
    let sb := downloadBusy s
    let url := backendUrlV3 ++ "/download/" ++ jsStr s.fileId
    let step : ConverterState × List NetEffect :=
      match out with
      | DlOutcome.ok _ _ =>
          (sb, [NetEffect.downloadRequest url,
                NetEffect.saveAction (jsStr s.downloadFilename)])
      | DlOutcome.httpError _ body =>
          (showError sb ("Download failed: " ++ jsOr body "Download failed"),
           [NetEffect.downloadRequest url])
      | DlOutcome.exn msg =>
          (showError sb ("Download failed: " ++ msg),
           [NetEffect.downloadRequest url])
    { final := downloadFinally step.1, effects := step.2,
      requestState := some sb }

/-- V2 `resetToUpload()`: restores the four regions and clears the file
input and the progress bar. It does NOT touch `fileId`,
`convertedFilename`, or `downloadFilename`. -/
def resetToUpload (s : ConverterState) : ConverterState :=
  { s with uploadDisplay := "block", progressDisplay := "none",
           resultDisplay := "none", errorDisplay := "none",
           fileInputValue := "", progressWidth := "0%",
           progressText := "Uploading..." }

/-- Modelled from the spec: the initial upload-only page state (the
repository's `index.html` is not under `src/`; the spec's state machine
starts at Idle with only the upload region shown and no stored result). -/
def initialState : ConverterState :=
  { uploadDisplay := "block", progressDisplay := "none",
    resultDisplay := "none", errorDisplay := "none", errorMessage := "",
    fileId := none, convertedFilename := none, originalFilename := none,
    downloadFilename := none, fileInputValue := "",
    downloadBtnText := "Download Word Document", downloadBtnDisabled := false,
    progressWidth := "0%", progressText := "Uploading...", statusText := "" }

/-- V1 `resetConverter()`: constructs a fresh `PDFToWordConverter` (whose
result fields are all `undefined`) and clears its file input; the DOM region
displays are not changed by the constructor. -/
def resetConverterV1 (s : ConverterState) : ConverterState :=
  { s with fileId := none, convertedFilename := none,
           originalFilename := none, downloadFilename := none,
           fileInputValue := "" }

/-- V2/V3 `resetConverter()`: `location.reload()` — the page restarts in the
initial upload-only state. -/
def resetConverterV3 (_s : ConverterState) : ConverterState := initialState

/-! ### Concrete test data -/

/-- A well-formed small PDF file. -/
def fPdf : File := { name := "doc.pdf", type := "application/pdf", size := 1000 }

/-- A zero-byte PDF file. -/
def fEmpty : File := { name := "empty.pdf", type := "application/pdf", size := 0 }

/-- A non-PDF file. -/
def fTxt : File := { name := "notes.txt", type := "text/plain", size := 100 }

/-- A PDF one byte over the 20 MiB limit. -/
def fBig : File :=
  { name := "big.pdf", type := "application/pdf", size := 20 * 1024 * 1024 + 1 }

/-- A PDF of exactly 20 MiB. -/
def fExact : File :=
  { name := "exact.pdf", type := "application/pdf", size := 20 * 1024 * 1024 }

/-- A successful conversion response body. -/
def rOk : ConvertResponse :=
  { ok := true, status := 200, success := some true, error := none,
    file_id := some "abc123", filename := some "abc123.docx",
    original_filename := some "mydoc.pdf" }

/-- An HTTP-success response whose body carries `success: false`. -/
def rFailBody : ConvertResponse :=
  { ok := true, status := 200, success := some false,
    error := some "bad pdf", file_id := none, filename := none,
    original_filename := none }

/-- A non-2xx response with a server-supplied error message. -/
def rHttpErr : ConvertResponse :=
  { ok := false, status := 500, success := none,
    error := some "server exploded", file_id := none, filename := none,
    original_filename := none }

/-- A widget state after a successful conversion (result stored). -/
def sResult : ConverterState :=
  { initialState with
    uploadDisplay := "none", resultDisplay := "block",
    fileId := some "abc123", convertedFilename := some "abc123.docx",
    originalFilename := some "mydoc.pdf", downloadFilename := some "mydoc.pdf",
    progressWidth := "100%" }

/-! ### Helper lemmas -/

/-- `a || b` with a non-empty default is never empty. -/
theorem jsOr_ne_empty (o : Option String) (d : String) (hd : d ≠ "") :
    jsOr o d ≠ "" := by
  cases o with
  | none => simpa [jsOr] using hd
  | some s =>
    by_cases h : s = "" <;> simp [jsOr, h, hd]

/-- Appending to a non-empty string yields a non-empty string. -/
theorem stringAppend_ne_empty_left (a b : String) (ha : a ≠ "") :
    a ++ b ≠ "" := by
  intro h
  apply ha
  have hd : a.data ++ b.data = [] := by
    have := congrArg String.data (String.congr_append a b ▸ h)
    simpa using this
  rcases List.append_eq_nil.mp hd with ⟨h1, _⟩
  cases a
  simp_all

/-! ### Claim theorems -/

/-- C6: for every file whose MIME type is not `application/pdf`, all three
variants of `handleFile` transition to the error state with the message
"Please select a PDF file" and perform no network call. -/
theorem handleFile_rejects_non_pdf (s : ConverterState) (f : File)
    (r : ConvertResponse) (hty : f.type ≠ "application/pdf") :
    ((handleFileV1 s f r).1.errorDisplay = "block" ∧
     (handleFileV1 s f r).1.errorMessage = "Please select a PDF file" ∧
     (handleFileV1 s f r).2 = []) ∧
    ((handleFileV2 s f r).1.errorDisplay = "block" ∧
     (handleFileV2 s f r).1.errorMessage = "Please select a PDF file" ∧
     (handleFileV2 s f r).2 = []) ∧
    ((handleFileV3 s f r).1.errorDisplay = "block" ∧
     (handleFileV3 s f r).1.errorMessage = "Please select a PDF file" ∧
     (handleFileV3 s f r).2 = []) := by
  simp [handleFileV1, handleFileV2, handleFileV3, showError, hty]

/-- C6 witness: a `text/plain` file is rejected with the PDF-type message. -/
theorem handleFile_rejects_non_pdf_witness :
    (handleFileV1 initialState fTxt rOk).1.errorMessage =
      "Please select a PDF file" :=
  (handleFile_rejects_non_pdf initialState fTxt rOk (by decide)).1.2.1

/-- C7: for every PDF file strictly larger than 20 MiB, all three variants
of `handleFile` transition to the error state with the message
"File size must be less than 20MB" and perform no network call. -/
theorem handleFile_rejects_oversized (s : ConverterState) (f : File)
    (r : ConvertResponse) (hty : f.type = "application/pdf")
    (hsz : f.size > 20 * 1024 * 1024) :
    ((handleFileV1 s f r).1.errorDisplay = "block" ∧
     (handleFileV1 s f r).1.errorMessage = "File size must be less than 20MB" ∧
     (handleFileV1 s f r).2 = []) ∧
    ((handleFileV2 s f r).1.errorDisplay = "block" ∧
     (handleFileV2 s f r).1.errorMessage = "File size must be less than 20MB" ∧
     (handleFileV2 s f r).2 = []) ∧
    ((handleFileV3 s f r).1.errorDisplay = "block" ∧
     (handleFileV3 s f r).1.errorMessage = "File size must be less than 20MB" ∧
     (handleFileV3 s f r).2 = []) := by
  simp [handleFileV1, handleFileV2, handleFileV3, showError, hty, hsz]

/-- C7 witness: a 20 MiB + 1 byte PDF is rejected with the size message. -/
theorem handleFile_rejects_oversized_witness :
    (handleFileV1 initialState fBig rOk).1.errorMessage =
      "File size must be less than 20MB" :=
  (handleFile_rejects_oversized initialState fBig rOk (by decide)
    (by decide)).1.2.1

/-- C10: a PDF of exactly 20 MiB passes validation in all three variants and
is submitted to the backend (the convert request is issued), since the size
check rejects only strictly greater sizes. -/
theorem handleFile_accepts_exact_20MiB (s : ConverterState) (f : File)
    (r : ConvertResponse) (hty : f.type = "application/pdf")
    (hsz : f.size = 20 * 1024 * 1024) :
    (handleFileV1 s f r).2 =
      [NetEffect.convertRequest (backendUrl ++ "/convert") f] ∧
    (handleFileV2 s f r).2 =
      [NetEffect.convertRequest (backendUrl ++ "/convert") f] ∧
    (handleFileV3 s f r).2 =
      [NetEffect.convertRequest (backendUrlV3 ++ "/convert") f] := by
  simp [handleFileV1, handleFileV2, handleFileV3, convertFileV1, convertFileV2,
        convertFileV3, hty, hsz]

/-- C10 witness: the exactly-20-MiB PDF `fExact` is submitted by variant 1. -/
theorem handleFile_accepts_exact_20MiB_witness :
    (handleFileV1 initialState fExact rOk).2 =
      [NetEffect.convertRequest (backendUrl ++ "/convert") fExact] :=
  (handleFile_accepts_exact_20MiB initialState fExact rOk rfl rfl).1

/-- C2 counterexample: variant 1 (`script.js` lines 57–71) has no empty-file
check, so a zero-byte PDF is NOT rejected: `handleFile` proceeds to
`convertFile` and issues the convert network request. -/
theorem handleFileV1_zero_byte_submitted :
    (handleFileV1 initialState fEmpty rOk).2 =
      [NetEffect.convertRequest (backendUrl ++ "/convert") fEmpty] ∧
    (handleFileV1 initialState fEmpty rOk).1.errorMessage ≠ "File is empty" := by
  constructor
  · rfl
  · decide

/-- C2 (amended): in variants 2 and 3, every zero-byte file of PDF type is
rejected with the error message "File is empty" and no network call; variant 1
lacks the empty-file check and submits the zero-byte PDF to the backend. -/
theorem handleFile_rejects_empty_v2_v3 (s : ConverterState) (f : File)
    (r : ConvertResponse) (hty : f.type = "application/pdf")
    (hsz : f.size = 0) :
    ((handleFileV2 s f r).1.errorDisplay = "block" ∧
     (handleFileV2 s f r).1.errorMessage = "File is empty" ∧
     (handleFileV2 s f r).2 = []) ∧
    ((handleFileV3 s f r).1.errorDisplay = "block" ∧
     (handleFileV3 s f r).1.errorMessage = "File is empty" ∧
     (handleFileV3 s f r).2 = []) ∧
    (handleFileV1 s f r).2 =
      [NetEffect.convertRequest (backendUrl ++ "/convert") f] := by
  simp [handleFileV1, handleFileV2, handleFileV3, convertFileV1, showError,
        hty, hsz]

/-- C2 witness: the zero-byte PDF `fEmpty` is rejected by variant 2 with
"File is empty". -/
theorem handleFile_rejects_empty_v2_v3_witness :
    (handleFileV2 initialState fEmpty rOk).1.errorMessage = "File is empty" :=
  (handleFile_rejects_empty_v2_v3 initialState fEmpty rOk rfl rfl).1.2.1

/-- C5 counterexample: variant 2's `resetToUpload` does not clear the stored
conversion result — after resetting a state holding a result, `fileId` and the
filenames are still present. -/
theorem resetToUpload_keeps_result :
    (resetToUpload sResult).fileId = some "abc123" ∧
    (resetToUpload sResult).convertedFilename = some "abc123.docx" ∧
    (resetToUpload sResult).downloadFilename = some "mydoc.pdf" := by
  refine ⟨rfl, rfl, rfl⟩

/-- C5 (amended): variant 2's `resetToUpload` returns all four regions to the
initial upload-only state and clears the selected-file input, but leaves every
stored conversion-result field (fileId and the filenames) unchanged; variant
1's `resetConverter` clears the result fields and the input of the fresh
instance it builds without touching the regions; variant 3's `resetConverter`
reloads the page, restoring the initial state. -/
theorem reset_regions_and_result (s : ConverterState) :
    (resetToUpload s).uploadDisplay = "block" ∧
    (resetToUpload s).progressDisplay = "none" ∧
    (resetToUpload s).resultDisplay = "none" ∧
    (resetToUpload s).errorDisplay = "none" ∧
    (resetToUpload s).fileInputValue = "" ∧
    (resetToUpload s).fileId = s.fileId ∧
    (resetToUpload s).convertedFilename = s.convertedFilename ∧
    (resetToUpload s).downloadFilename = s.downloadFilename ∧
    (resetConverterV1 s).fileId = none ∧
    (resetConverterV1 s).convertedFilename = none ∧
    (resetConverterV1 s).downloadFilename = none ∧
    (resetConverterV1 s).fileInputValue = "" ∧
    (resetConverterV1 s).uploadDisplay = s.uploadDisplay ∧
    resetConverterV3 s = initialState := by
  simp [resetToUpload, resetConverterV1, resetConverterV3]

/-- C1 counterexample: variant 1 (`script.js` lines 85–95) never inspects the
body's `success` flag — an HTTP-success response carrying `success: false`
still reaches the result state, not the error state. -/
theorem convertFileV1_failure_body_reaches_result :
    (convertFileV1 initialState fPdf rFailBody).1.resultDisplay = "block" ∧
    (convertFileV1 initialState fPdf rFailBody).1.errorDisplay = "none" := by
  refine ⟨rfl, rfl⟩

/-- C1 (amended): on HTTP success with a success indicator (`success: true`),
every variant transitions to the result state holding the returned `file_id`
and server-assigned filename (variant 1 stores the raw original filename;
variants 2/3 store `original_filename || 'converted_document.docx'` as the
download name); on HTTP success with `success: false`, only variant 2
transitions to the error state — variants 1 and 3 reach the result state
regardless of the body's success flag. -/
theorem convert_success_and_failure_transitions (s : ConverterState) (f : File)
    (r : ConvertResponse) (hok : r.ok = true) :
    (r.success = some true →
      ((convertFileV2 s f r).1.resultDisplay = "block" ∧
       (convertFileV2 s f r).1.errorDisplay = "none" ∧
       (convertFileV2 s f r).1.fileId = r.file_id ∧
       (convertFileV2 s f r).1.convertedFilename = r.filename ∧
       (convertFileV2 s f r).1.downloadFilename =
         some (jsOr r.original_filename "converted_document.docx"))) ∧
    (r.success = some false →
      ((convertFileV2 s f r).1.errorDisplay = "block" ∧
       (convertFileV2 s f r).1.resultDisplay = "none")) ∧
    ((convertFileV1 s f r).1.resultDisplay = "block" ∧
     (convertFileV1 s f r).1.errorDisplay = "none" ∧
     (convertFileV1 s f r).1.fileId = r.file_id ∧
     (convertFileV1 s f r).1.convertedFilename = r.filename ∧
     (convertFileV1 s f r).1.originalFilename = r.original_filename) ∧
    ((convertFileV3 s f r).1.resultDisplay = "block" ∧
     (convertFileV3 s f r).1.errorDisplay = "none" ∧
     (convertFileV3 s f r).1.fileId = r.file_id ∧
     (convertFileV3 s f r).1.convertedFilename = r.filename ∧
     (convertFileV3 s f r).1.downloadFilename =
       some (jsOr r.original_filename "converted_document.docx")) := by
  refine ⟨fun hs => ?_, fun hs => ?_, ?_, ?_⟩ <;>
    simp [convertFileV1, convertFileV2, convertFileV3, showProgress,
          showError, showResultV1, showResultV2, jsTruthyBool, hok, *]

/-- C1 witness: on the concrete success response `rOk`, variant 2 stores the
returned `file_id`. -/
theorem convert_success_and_failure_transitions_witness :
    (convertFileV2 initialState fPdf rOk).1.fileId = some "abc123" :=
  ((convert_success_and_failure_transitions initialState fPdf rOk
    rfl).1 rfl).2.2.1

/-- C8 counterexample: variant 3 (`part_000` lines 111–120) never inspects the
body's `success` flag — an HTTP-success response carrying an explicit failure
body (`success: false` with an error message) reaches the result state, not
the error state. -/
theorem convertFileV3_failure_body_reaches_result :
    (convertFileV3 initialState fPdf rFailBody).1.resultDisplay = "block" ∧
    (convertFileV3 initialState fPdf rFailBody).1.errorDisplay = "none" := by
  refine ⟨rfl, rfl⟩

/-- C8 (amended): for every non-2xx convert response, each variant reaches the
error state with a non-empty message — variants 1 and 3 use the
server-supplied `error` when present (a generic fallback otherwise), while
variant 2 always uses a generic status message; a 2xx response carrying an
explicit failure body (`success: false`) reaches the error state (server
message or fallback) only in variant 2 — variants 1 and 3 transition to the
result state. -/
theorem convert_failure_error_states (s : ConverterState) (f : File)
    (r : ConvertResponse) :
    (r.ok = false →
      ((convertFileV1 s f r).1.errorDisplay = "block" ∧
       (convertFileV1 s f r).1.errorMessage = jsOr r.error "Conversion failed" ∧
       (convertFileV1 s f r).1.errorMessage ≠ "" ∧
       (convertFileV3 s f r).1.errorDisplay = "block" ∧
       (convertFileV3 s f r).1.errorMessage =
         jsOr r.error ("Conversion failed (" ++ toString r.status ++ ")") ∧
       (convertFileV3 s f r).1.errorMessage ≠ "" ∧
       (convertFileV2 s f r).1.errorDisplay = "block" ∧
       (convertFileV2 s f r).1.errorMessage =
         "Conversion failed (" ++ toString r.status ++ ")" ∧
       (convertFileV2 s f r).1.errorMessage ≠ "")) ∧
    (r.ok = true → r.success = some false →
      ((convertFileV2 s f r).1.errorDisplay = "block" ∧
       (convertFileV2 s f r).1.errorMessage = jsOr r.error "Conversion failed" ∧
       (convertFileV2 s f r).1.errorMessage ≠ "" ∧
       (convertFileV1 s f r).1.resultDisplay = "block" ∧
       (convertFileV1 s f r).1.errorDisplay = "none" ∧
       (convertFileV3 s f r).1.resultDisplay = "block" ∧
       (convertFileV3 s f r).1.errorDisplay = "none")) := by
  constructor
  · intro hok
    simp [convertFileV1, convertFileV2, convertFileV3, showProgress,
          showError, jsTruthyBool, hok]
    refine ⟨jsOr_ne_empty _ _ (by decide), ?_, ?_⟩
    · exact jsOr_ne_empty _ _
        (stringAppend_ne_empty_left _ _
          (stringAppend_ne_empty_left _ _ (by decide)))
    · exact stringAppend_ne_empty_left _ _
        (stringAppend_ne_empty_left _ _ (by decide))
  · intro hok hs
    simp [convertFileV1, convertFileV2, convertFileV3, showProgress,
          showError, showResultV1, showResultV2, jsTruthyBool, hok, hs]
    exact jsOr_ne_empty _ _ (by decide)

/-- C8 witness: on the concrete non-2xx response `rHttpErr`, variant 1 shows
the server-supplied message. -/
theorem convert_failure_error_states_witness :
    (convertFileV1 initialState fPdf rHttpErr).1.errorMessage =
      jsOr (some "server exploded") "Conversion failed" :=
  ((convert_failure_error_states initialState fPdf rHttpErr).1 rfl).2.1

/-- C3 counterexample: variant 1's guard `if (fileId && convertedFilename)`
has no `else` branch — calling `downloadConvertedFile` with no stored result
issues no request but also surfaces no error: the state is unchanged. -/
theorem downloadV1_no_result_silent :
    downloadConvertedFileV1 initialState (DlOutcome.ok 200 5) =
      { final := initialState, effects := [], requestState := none } ∧
    initialState.errorDisplay = "none" := by
  refine ⟨rfl, rfl⟩

/-- C3 (amended): calling download with no stored result (`fileId` falsy)
issues no network request in any variant; variants 2 and 3 surface the error
"No file to download", while variant 1 silently leaves the state unchanged
and shows no error message. -/
theorem download_no_result_error_no_request (s : ConverterState)
    (out : DlOutcome) (h : jsTruthy s.fileId = false) :
    ((downloadConvertedFileV2 s out).effects = [] ∧
     (downloadConvertedFileV2 s out).requestState = none ∧
     (downloadConvertedFileV2 s out).final.errorDisplay = "block" ∧
     (downloadConvertedFileV2 s out).final.errorMessage =
       "No file to download") ∧
    ((downloadConvertedFileV3 s out).effects = [] ∧
     (downloadConvertedFileV3 s out).requestState = none ∧
     (downloadConvertedFileV3 s out).final.errorDisplay = "block" ∧
     (downloadConvertedFileV3 s out).final.errorMessage =
       "No file to download") ∧
    ((downloadConvertedFileV1 s out).effects = [] ∧
     (downloadConvertedFileV1 s out).requestState = none ∧
     (downloadConvertedFileV1 s out).final = s) := by
  simp [downloadConvertedFileV1, downloadConvertedFileV2,
        downloadConvertedFileV3, showError, h]

/-- C3 witness: on the initial state (no result), variant 2's download makes
no request. -/
theorem download_no_result_error_no_request_witness :
    (downloadConvertedFileV2 initialState (DlOutcome.exn "network down")).effects
      = [] :=
  (download_no_result_error_no_request initialState
    (DlOutcome.exn "network down") rfl).1.1

/-- C4 counterexample: variant 1 has no blob-size check — an ok download
response with a zero-byte body still triggers the browser save action, and no
error is surfaced. -/
theorem downloadV1_empty_blob_triggers_save :
    (downloadConvertedFileV1 sResult (DlOutcome.ok 200 0)).effects =
      [NetEffect.downloadRequest
        "https://pdf2word-4hoo.onrender.com/download/abc123/abc123.docx",
       NetEffect.saveAction "mydoc.pdf"] ∧
    (downloadConvertedFileV1 sResult (DlOutcome.ok 200 0)).final.errorDisplay
      = "none" := by
  refine ⟨rfl, rfl⟩

/-- C4 (amended): only variant 2 checks the downloaded blob's size — on an ok
response with a zero-byte body it surfaces the error
"Download failed: Downloaded file is empty" and triggers no save action;
variants 3 and 1 have no blob-size check and trigger the browser save action
even for an empty body, surfacing no error. -/
theorem downloadV2_empty_blob_error (s : ConverterState) (status : Nat)
    (h : jsTruthy s.fileId = true) :
    (downloadConvertedFileV2 s (DlOutcome.ok status 0)).final.errorDisplay =
      "block" ∧
    (downloadConvertedFileV2 s (DlOutcome.ok status 0)).final.errorMessage =
      "Download failed: Downloaded file is empty" ∧
    (downloadConvertedFileV2 s (DlOutcome.ok status 0)).effects =
      [NetEffect.downloadRequest
        (backendUrl ++ "/download/" ++ jsStr s.fileId)] ∧
    (∀ n, NetEffect.saveAction n ∉
      (downloadConvertedFileV2 s (DlOutcome.ok status 0)).effects) ∧
    ((downloadConvertedFileV3 s (DlOutcome.ok status 0)).effects =
      [NetEffect.downloadRequest
        (backendUrlV3 ++ "/download/" ++ jsStr s.fileId),
       NetEffect.saveAction (jsStr s.downloadFilename)] ∧
     (downloadConvertedFileV3 s (DlOutcome.ok status 0)).final.errorDisplay =
       s.errorDisplay) ∧
    (jsTruthy s.convertedFilename = true →
      (downloadConvertedFileV1 s (DlOutcome.ok status 0)).effects =
        [NetEffect.downloadRequest
          (backendUrl ++ "/download/" ++ jsStr s.fileId ++ "/" ++
            jsStr s.convertedFilename),
         NetEffect.saveAction (jsOr s.originalFilename "converted.docx")] ∧
      (downloadConvertedFileV1 s (DlOutcome.ok status 0)).final.errorDisplay =
        s.errorDisplay) := by
  refine ⟨?_, ?_, ?_, ?_, ⟨?_, ?_⟩, fun h2 => ⟨?_, ?_⟩⟩ <;>
    simp [downloadConvertedFileV1, downloadConvertedFileV2,
          downloadConvertedFileV3, downloadBusy, downloadFinally, showError,
          h, *]

/-- C4 witness: in the concrete result state, variant 2 rejects a zero-byte
download body with the empty-file error. -/
theorem downloadV2_empty_blob_error_witness :
    (downloadConvertedFileV2 sResult (DlOutcome.ok 200 0)).final.errorMessage =
      "Download failed: Downloaded file is empty" :=
  (downloadV2_empty_blob_error sResult 200 rfl).2.1

/-- C9: whenever a download request is issued, the widget state at request
time has the button disabled with the label "Downloading...", and the final
state — for every outcome: ok response, non-ok response, or thrown
exception — has the button re-enabled with its label restored, in all three
variants. -/
theorem download_button_lifecycle (s : ConverterState) (out : DlOutcome)
    (h1 : jsTruthy s.fileId = true) :
    ((downloadConvertedFileV2 s out).requestState = some (downloadBusy s) ∧
     (downloadBusy s).downloadBtnDisabled = true ∧
     (downloadBusy s).downloadBtnText = "Downloading..." ∧
     (downloadConvertedFileV2 s out).final.downloadBtnDisabled = false ∧
     (downloadConvertedFileV2 s out).final.downloadBtnText =
       "Download Word Document") ∧
    ((downloadConvertedFileV3 s out).requestState = some (downloadBusy s) ∧
     (downloadConvertedFileV3 s out).final.downloadBtnDisabled = false ∧
     (downloadConvertedFileV3 s out).final.downloadBtnText =
       "Download Word Document") ∧
    (jsTruthy s.convertedFilename = true →
      ((downloadConvertedFileV1 s out).requestState = some (downloadBusy s) ∧
       (downloadConvertedFileV1 s out).final.downloadBtnDisabled = false ∧
       (downloadConvertedFileV1 s out).final.downloadBtnText =
         "Download Word Document")) := by
  refine ⟨?_, ?_, fun h2 => ?_⟩ <;> cases out <;>
    simp [downloadConvertedFileV1, downloadConvertedFileV2,
          downloadConvertedFileV3, downloadBusy, downloadFinally, showError,
          h1, *]

/-- C9 witness: in the concrete result state, after a failed download the
button is re-enabled. -/
theorem download_button_lifecycle_witness :
    (downloadConvertedFileV2 sResult
      (DlOutcome.httpError 500 none)).final.downloadBtnDisabled = false :=
  (download_button_lifecycle sResult (DlOutcome.httpError 500 none)
    rfl).1.2.2.2.1

end Pdf2Word
